import Mathlib

/-!
Verification model of the established-state TCP connection engine of
`src/rust/inetstack/protocols/layer4/tcp/established/ctrlblk.rs`.

Representation choices:

* Sequence numbers (`SeqNumber`, a wrapping 32-bit integer) are embedded as
  `Nat` values kept below `2 ^ 32`, with explicit wrap-around arithmetic
  (`add32`, `sub32`) and the serial-number comparison (`seqLt`).
* `DemiBuffer` values are embedded as `List Nat` (lists of bytes).  Per the
  specification of the external `Buffer` capability, `adjust n` advances the
  head by `n` bytes (`List.drop`), `trim n` shortens the tail by `n` bytes
  (`List.take (len - n)`), and `split_front n` returns the first `n` bytes as
  an independent buffer (`List.take n`).
* Blocking asynchronous operations and panics are embedded as
  `Option`-returning functions: `none` models an `await` that cannot complete
  on the current state, a failing `expect_ok!` (a panic), or an
  `unreachable!`.
* The layer-3 endpoint's nonblocking transmit is an external capability; its
  success or failure is supplied as a `Bool` argument (`transmitOk`).
* The congestion-control algorithm is an external pluggable variant; its
  internal state is not modelled because no claim concerns it (the calls
  into it do not touch any control-block field modelled here).
* `Instant`/`Duration` values are embedded as `Nat` tick counts.
-/

/-- Modulus of 32-bit sequence-number arithmetic. -/
def w32 : Nat := 2 ^ 32

/-- Wrapping 32-bit addition (`SeqNumber` addition / wrapping u32 addition). -/
def add32 (a b : Nat) : Nat := (a + b) % w32

/-- Wrapping 32-bit subtraction (`SeqNumber` subtraction / u32 subtraction in
release mode).  For `a b < 2 ^ 32` this is `(a + 2 ^ 32 - b) % 2 ^ 32`. -/
def sub32 (a b : Nat) : Nat := (a + (w32 - b % w32)) % w32

/-- Modelled from the spec: the `SeqNumber` ordering (`seqnumber.rs` is not
under `src/`) is the RFC 1323 serial-number comparison: `a < b` iff the two
values differ and `(b - a) mod 2 ^ 32 < 2 ^ 31`. -/
def seqLt (a b : Nat) : Prop := 0 < sub32 b a ∧ sub32 b a < 2 ^ 31

instance (a b : Nat) : Decidable (seqLt a b) := by
  unfold seqLt; infer_instance

/-- Serial-number `a <= b`: equal or serially less. -/
def seqLe (a b : Nat) : Prop := a = b ∨ seqLt a b

instance (a b : Nat) : Decidable (seqLe a b) := by
  unfold seqLe; infer_instance

/-- Errno values the engine returns (`Fail::new(libc::..., ...)`). -/
inductive Errno where
  | EBADMSG
  | ECONNRESET
  | EBADF
  deriving DecidableEq

/-- TCP connection state from ctrlblk.rs (established-phase states only). -/
inductive State where
  | Established
  | FinWait1
  | FinWait2
  | Closing
  | TimeWait
  | CloseWait
  | LastAck
  | Closed
  deriving DecidableEq

/-- The TCP header fields the engine reads and writes (`TcpHeader`).
Addressing fields (ports) are omitted: no claim concerns them. -/
structure TcpHeader where
  seq_num : Nat
  ack_num : Nat
  ack : Bool
  rst : Bool
  syn : Bool
  fin : Bool
  urg : Bool
  window_size : Nat
  deriving DecidableEq

/-- Receive-side state (`Receiver` in ctrlblk.rs).  The in-order receive
queue is a FIFO of byte buffers, front at the head of the list. -/
structure Receiver where
  reader_next_seq_no : Nat
  receive_next_seq_no : Nat
  fin_seq_no : Option Nat
  recv_queue : List (List Nat)
  deriving DecidableEq

/-- Modelled from the spec: send-side state (`sender.rs` is not under
`src/`).  Holds SND.UNA, SND.NXT, SND.WND, the send-side window scale
shift, and the MSS; the unacked/unsent queues and RTO estimator are not
modelled because no claim concerns them. -/
structure Sender where
  unacked_seq_no : Nat
  next_seq_no : Nat
  send_window : Nat
  send_window_scale_shift_bits : Nat
  mss : Nat
  deriving DecidableEq

/-- The per-connection control block (`ControlBlock` in ctrlblk.rs).
External handles (layer-3 endpoint, runtime clock, config, parent close
queue) are not state of the protocol model; the clock and transmit outcome
enter as function arguments. -/
structure ControlBlock where
  state : State
  sender : Sender
  receiver : Receiver
  receive_ack_delay_timeout_secs : Nat
  receive_ack_deadline_time_secs : Option Nat
  receive_buffer_size_frames : Nat
  receive_window_scale_shift_bits : Nat
  receive_out_of_order_frames : List (Nat × List Nat)
  deriving DecidableEq

/-- Hard cap on the number of out-of-order store entries (ctrlblk.rs line
53). -/
def MAX_OUT_OF_ORDER_SIZE_FRAMES : Nat := 16

/-- Receiver::push (lines 142-146): append the buffer to the in-order
receive queue and advance `receive_next_seq_no` by its length. -/
def Receiver.push (r : Receiver) (buf : List Nat) : Receiver :=
  { r with
    recv_queue := r.recv_queue ++ [buf],
    receive_next_seq_no := add32 r.receive_next_seq_no (buf.length % w32) }

/-- Receiver::push_fin (lines 148-155): append a zero-length buffer, re-set
the `fin_seq_no` observable (waking close coroutines), and move RCV.NXT over
the FIN.  The source `debug_assert_eq!` requires `fin_seq_no` to already
hold `receive_next_seq_no`; callers establish this. -/
def Receiver.push_fin (r : Receiver) : Receiver :=
  { r with
    recv_queue := r.recv_queue ++ [[]],
    fin_seq_no := some r.receive_next_seq_no,
    receive_next_seq_no := add32 r.receive_next_seq_no 1 }

/-- Receiver::pop (lines 117-140).  `none` models an await that blocks on an
empty queue.  With `size = some n` and a head buffer longer than `n` bytes,
the code returns `buf.split_front(n)` (the first `n` bytes); the local
variable holding the tail goes out of scope and the tail is dropped.
`reader_next_seq_no` advances by the returned length, or by 1 for a
zero-length (FIN marker) buffer. -/
def Receiver.pop (r : Receiver) (size : Option Nat) : Option (List Nat × Receiver) :=
  match r.recv_queue with
  | [] => none
  | buf :: rest =>
    let ret : List Nat :=
      match size with
      | some size => if size < buf.length then buf.take size else buf
      | none => buf
    let r1 : Receiver := { r with recv_queue := rest }
    let r2 : Receiver :=
      if 0 < ret.length then
        { r1 with reader_next_seq_no := add32 r1.reader_next_seq_no (ret.length % w32) }
      else
        { r1 with reader_next_seq_no := add32 r1.reader_next_seq_no 1 }
    some (ret, r2)

/-- SharedControlBlock::get_receive_window_size (lines 784-787): the receive
window is the buffer size minus the received-but-unread byte count.  The
subtractions are u32 operations, modelled wrapping; the receiver invariant
`receive_next - reader_next <= receive_buffer_size_frames` keeps them from
underflowing. -/
def get_receive_window_size (cb : ControlBlock) : Nat :=
  sub32 cb.receive_buffer_size_frames
    (sub32 cb.receiver.receive_next_seq_no cb.receiver.reader_next_seq_no)

/-- SharedControlBlock::hdr_window_size (lines 789-802): shift the receive
window down by the receive-side window scale and convert to u16.  The
conversion is `expect_ok!((... ).try_into(), "Window size overflow")`, which
panics (modelled `none`) when the shifted value does not fit in a u16; the
value is not clamped. -/
def hdr_window_size (cb : ControlBlock) : Option Nat :=
  let window_size := get_receive_window_size cb
  let shifted := window_size >>> cb.receive_window_scale_shift_bits
  if shifted < 2 ^ 16 then some shifted else none

/-- SharedControlBlock::tcp_header (lines 712-722): build a header with ACK
set, `ack_num = receive_next_seq_no`, and the scaled window size.
`TcpHeader::new` initialises all other fields to zero/false.  `none`
propagates the hdr_window_size panic. -/
def tcp_header (cb : ControlBlock) : Option TcpHeader :=
  match hdr_window_size cb with
  | none => none
  | some w =>
    some { seq_num := 0, ack_num := cb.receiver.receive_next_seq_no,
           ack := true, rst := false, syn := false, fin := false,
           urg := false, window_size := w }

/-- SharedControlBlock::emit (lines 736-774): serialize and transmit through
the layer-3 endpoint.  If the nonblocking transmit fails the function warns
and returns early; only on success does it clear the delayed-ACK deadline.
Serialization and the packet buffer are external to the model; `transmitOk`
is the transmit outcome. -/
def emit (cb : ControlBlock) (_header : TcpHeader) (_body : Option (List Nat))
    (transmitOk : Bool) : ControlBlock :=
  if transmitOk then { cb with receive_ack_deadline_time_secs := none } else cb

/-- SharedControlBlock::send_ack (lines 725-733): build a header via
tcp_header, overwrite `seq_num` with SND.NXT, and emit it with no body.
Returns the emitted header alongside the updated control block so theorems
can observe it. -/
def send_ack (cb : ControlBlock) (transmitOk : Bool) :
    Option (ControlBlock × TcpHeader) :=
  match tcp_header cb with
  | none => none
  | some h =>
    let h2 := { h with seq_num := cb.sender.next_seq_no }
    some (emit cb h2 none transmitOk, h2)

/-- send_ack projected to the control block (for call sites that ignore the
emitted header). -/
def sendAckCb (cb : ControlBlock) (transmitOk : Bool) : Option ControlBlock :=
  match send_ack cb transmitOk with
  | none => none
  | some p => some p.1

/-- Modelled from the spec: Sender::process_ack (`sender.rs` is not under
`src/`) advances SND.UNA to the acknowledged sequence number, frees
fully-acknowledged segments (queues not modelled), and updates SND.WND from
the header's window field shifted by the send-side window scale. -/
def Sender.process_ack (s : Sender) (header : TcpHeader) : Sender :=
  { s with
    unacked_seq_no := header.ack_num,
    send_window := (header.window_size <<< s.send_window_scale_shift_bits) % w32 }

/-- Outcome of the windowing step.  `dropped ackSent` is the
`Err(EBADMSG)` path, recording whether an ACK was sent first (the code
sends one unless the segment carries RST); `panicked` models a failing
`expect_ok!` on a buffer trim/adjust. -/
inductive SegOutcome where
  | panicked
  | dropped (ackSent : Bool)
  | passed (header : TcpHeader) (data : List Nat) (segStart segEnd segLen : Nat)
  deriving DecidableEq

/-- The initial segment length from the process_packet prologue (line 404)
plus the SYN/FIN adjustment of check_segment_in_window (lines 500-505): the
payload length (cast to u32) plus one sequence slot for each of SYN and
FIN. -/
def segLenInit (header : TcpHeader) (data : List Nat) : Nat :=
  data.length % w32 + (if header.syn then 1 else 0) + (if header.fin then 1 else 0)

/-- The initial segment end: `seg_start + seg_len - 1` when the segment
occupies sequence space (lines 506-508), otherwise the prologue value
`seg_start` (line 403). -/
def segEndInit (header : TcpHeader) (data : List Nat) : Nat :=
  if 0 < segLenInit header data then add32 header.seq_num (segLenInit header data - 1)
  else header.seq_num

/-- The tail-trim count of check_segment_in_window (lines 570-571):
`seg_end - after_receive_window + 1`. -/
def tailTrimExcess (after_receive_window seg_end : Nat) : Nat :=
  sub32 seg_end after_receive_window + 1

/-- The tail-trim of check_segment_in_window (lines 570-583): shorten the
segment by the excess; a FIN flag sits at the last sequence position, so it
is cleared and the payload-trim count reduced by one.  The
`data.trim(...)` call panics when the trim count exceeds the payload
length. -/
def tailTrim (after_receive_window : Nat) (header : TcpHeader) (data : List Nat)
    (seg_start seg_end seg_len : Nat) : SegOutcome :=
  if header.fin then
    if tailTrimExcess after_receive_window seg_end - 1 ≤ data.length then
      .passed { header with fin := false }
        (data.take (data.length - (tailTrimExcess after_receive_window seg_end - 1)))
        seg_start
        (sub32 seg_end (tailTrimExcess after_receive_window seg_end))
        (sub32 seg_len (tailTrimExcess after_receive_window seg_end))
    else .panicked
  else
    if tailTrimExcess after_receive_window seg_end ≤ data.length then
      .passed header
        (data.take (data.length - tailTrimExcess after_receive_window seg_end))
        seg_start
        (sub32 seg_end (tailTrimExcess after_receive_window seg_end))
        (sub32 seg_len (tailTrimExcess after_receive_window seg_end))
    else .panicked

/-- Tail half of check_segment_in_window (lines 567-592): if the
(nonempty) segment runs past the right window edge, trim the excess off the
tail; otherwise pass the segment through unchanged. -/
def tailCheck (after_receive_window : Nat) (header : TcpHeader) (data : List Nat)
    (seg_start seg_end seg_len : Nat) : SegOutcome :=
  if 0 < seg_len ∧ ¬ seqLt seg_end after_receive_window then
    tailTrim after_receive_window header data seg_start seg_end seg_len
  else .passed header data seg_start seg_end seg_len

/-- The head-trim of check_segment_in_window (lines 531-546), for a segment
that starts before `receive_next` but reaches into the window: cut
`receive_next - seg_start` sequence slots off the front; a SYN flag sits at
the first sequence position, so it is cleared and the payload-trim count
reduced by one.  The `data.adjust(...)` call panics when the trim count
exceeds the payload length.  Control then falls through to the tail
check. -/
def headTrim (receive_next after_receive_window : Nat) (header : TcpHeader)
    (data : List Nat) : SegOutcome :=
  if header.syn then
    if sub32 receive_next header.seq_num - 1 ≤ data.length then
      tailCheck after_receive_window { header with syn := false }
        (data.drop (sub32 receive_next header.seq_num - 1))
        (add32 header.seq_num (sub32 receive_next header.seq_num))
        (segEndInit header data)
        (sub32 (segLenInit header data) (sub32 receive_next header.seq_num))
    else .panicked
  else
    if sub32 receive_next header.seq_num ≤ data.length then
      tailCheck after_receive_window header
        (data.drop (sub32 receive_next header.seq_num))
        (add32 header.seq_num (sub32 receive_next header.seq_num))
        (segEndInit header data)
        (sub32 (segLenInit header data) (sub32 receive_next header.seq_num))
    else .panicked

/-- SharedControlBlock::check_segment_in_window (lines 473-593), together
with the `seg_start`/`seg_end`/`seg_len` initialisation from the
process_packet prologue (lines 402-404).  A segment wholly before
`receive_next` is ACKed (unless RST) and dropped; a segment overlapping
`receive_next` is head-trimmed; a segment starting at or past the right
window edge is ACKed (unless RST) and dropped; finally the tail is trimmed
to the window. -/
def checkSegmentInWindow (receive_next rwnd : Nat) (header : TcpHeader)
    (data : List Nat) : SegOutcome :=
  if header.seq_num ≠ receive_next then
    if seqLt header.seq_num receive_next then
      if seqLt (segEndInit header data) receive_next then
        .dropped (!header.rst)
      else
        headTrim receive_next (add32 receive_next rwnd) header data
    else
      if ¬ seqLt header.seq_num (add32 receive_next rwnd) then
        .dropped (!header.rst)
      else
        tailCheck (add32 receive_next rwnd) header data header.seq_num
          (segEndInit header data) (segLenInit header data)
  else
    tailCheck (add32 receive_next rwnd) header data header.seq_num
      (segEndInit header data) (segLenInit header data)

/-- Result of one pass of the insertion scan in
store_out_of_order_segment. -/
inductive OooScan where
  | insertAt (index new_start : Nat) (buf : List Nat)
  | removeAt (index new_start new_end : Nat) (buf : List Nat)
  | dropNew
  deriving DecidableEq

/-- One pass of the insertion scan of
SharedControlBlock::store_out_of_order_segment (lines 833-904).
`total` is the current length of the store: `action_index` is initialised
to it before the scan (line 833) and is what the function uses when the
scan ends without setting it.  Note two properties of the source preserved
here: in the front-overlap branch (lines 871-879) the code trims the tail
of the new buffer and breaks without updating `action_index`, so the
insertion index stays `total`; and in the end-overlap branch (line 896) the
head-trim count is `u32::from(stored_end - new_start)` with no `+ 1`. -/
def oooScan (total : Nat) :
    List (Nat × List Nat) → Nat → Nat → Nat → List Nat → OooScan
  | [], _, new_start, _, buf => .insertAt total new_start buf
  | (stored_start, b) :: rest, index, new_start, new_end, buf =>
    let stored_end := add32 stored_start (b.length % w32 - 1)
    if seqLt new_start stored_start then
      if seqLt new_end stored_start then
        .insertAt index new_start buf
      else if seqLt stored_end new_end then
        .removeAt index new_start new_end buf
      else
        let excess := sub32 new_end stored_start + 1
        .insertAt total new_start (buf.take (buf.length - excess))
    else
      if seqLe new_end stored_end then
        .dropNew
      else if seqLt stored_end new_start then
        oooScan total rest (index + 1) new_start new_end buf
      else
        let dup := sub32 stored_end new_start
        oooScan total rest (index + 1) (add32 new_start dup) new_end (buf.drop dup)

/-- The outer while-loop of store_out_of_order_segment (lines 824-920):
rescan after removing an encompassed entry; on completion insert the (new
start, buffer) pair at the action index and enforce the entry-count cap by
dropping from the tail.  A complete-duplicate segment returns early without
inserting.  Each removal shrinks the store, so `frames.length + 1` fuel
suffices. -/
def storeOooList (fuel : Nat) (frames : List (Nat × List Nat))
    (new_start new_end : Nat) (buf : List Nat) : List (Nat × List Nat) :=
  match fuel with
  | 0 => frames
  | fuel + 1 =>
    match oooScan frames.length frames 0 new_start new_end buf with
    | .dropNew => frames
    | .insertAt i ns b =>
      let inserted := frames.insertIdx i (ns, b)
      if MAX_OUT_OF_ORDER_SIZE_FRAMES < inserted.length then
        inserted.take MAX_OUT_OF_ORDER_SIZE_FRAMES
      else inserted
    | .removeAt i ns ne b => storeOooList fuel (frames.eraseIdx i) ns ne b

/-- SharedControlBlock::store_out_of_order_segment (lines 824-921) lifted to
the control block: only the out-of-order frame store is touched. -/
def store_out_of_order_segment (cb : ControlBlock) (new_start new_end : Nat)
    (buf : List Nat) : ControlBlock :=
  { cb with
    receive_out_of_order_frames :=
      storeOooList (cb.receive_out_of_order_frames.length + 1)
        cb.receive_out_of_order_frames new_start new_end buf }

/-- The drain loop of SharedControlBlock::receive_data (lines 944-960):
while the head of the out-of-order store starts exactly at
`receive_next_seq_no`, move it to the receive queue (which advances
`receive_next_seq_no` by its length). -/
def drainLoop : List (Nat × List Nat) → Receiver → List (Nat × List Nat) × Receiver
  | [], r => ([], r)
  | (s, b) :: rest, r =>
    if s = r.receive_next_seq_no then drainLoop rest (Receiver.push r b)
    else ((s, b) :: rest, r)

/-- SharedControlBlock::receive_data (lines 931-961): push the in-order
segment data onto the receive queue, then drain newly in-order entries from
the out-of-order store.  The source tracks `recv_next` in a local variable
kept equal to the receiver's `receive_next_seq_no` (Receiver::push advances
both identically), so the model reads the receiver field directly. -/
def receive_data (cb : ControlBlock) (buf : List Nat) : ControlBlock :=
  let r1 := Receiver.push cb.receiver buf
  let p := drainLoop cb.receive_out_of_order_frames r1
  { cb with receiver := p.2, receive_out_of_order_frames := p.1 }

/-- SharedControlBlock::process_data (lines 676-708): an out-of-order
segment with data is stored in the out-of-order store and immediately ACKed
when the state still admits receiving data; in-order data goes through
receive_data.  `none` propagates a send_ack panic. -/
def process_data (cb : ControlBlock) (data : List Nat)
    (seg_start seg_end seg_len : Nat) (transmitOk : Bool) : Option ControlBlock :=
  if seg_start ≠ cb.receiver.receive_next_seq_no then
    if 0 < seg_len then
      match cb.state with
      | .Established | .FinWait1 | .FinWait2 =>
        sendAckCb (store_out_of_order_segment cb seg_start seg_end data) transmitOk
      | _ => some cb
    else some cb
  else
    some (receive_data cb data)

/-- SharedControlBlock::process_fin (lines 963-972): transition the state
(Established to CloseWait, FinWait1 to Closing, FinWait2 to TimeWait) and
push the FIN marker into the receive queue.  Any other state hits
`unreachable!`, modelled as `none`. -/
def process_fin (cb : ControlBlock) : Option ControlBlock :=
  match cb.state with
  | .Established => some { cb with state := .CloseWait, receiver := Receiver.push_fin cb.receiver }
  | .FinWait1 => some { cb with state := .Closing, receiver := Receiver.push_fin cb.receiver }
  | .FinWait2 => some { cb with state := .TimeWait, receiver := Receiver.push_fin cb.receiver }
  | _ => none

/-- The FIN-consumption check of process_packet (lines 436-444): when the
recorded FIN sequence number equals `receive_next_seq_no`, everything before
the FIN has been received and process_fin runs. -/
def check_fin_consumption (cb : ControlBlock) : Option ControlBlock :=
  if cb.receiver.fin_seq_no = some cb.receiver.receive_next_seq_no then
    process_fin cb
  else some cb

/-- Result of processing one ingress segment: either a panic
(`expect_ok!`/`unreachable!`) or an updated control block together with the
error, if any, that process_packet returned (the poll loop only logs it). -/
inductive ProcResult where
  | panicked
  | done (cb : ControlBlock) (err : Option Errno)
  deriving DecidableEq

/-- SharedControlBlock::process_packet (lines 401-466) together with the
steps it calls: windowing (checkSegmentInWindow), check_rst (lines 596-609,
`Err(ECONNRESET)` on RST), check_syn (lines 612-630, `Err(EBADMSG)` on an
in-window SYN), process_ack (lines 633-674, drop non-ACK segments, ACK and
drop acknowledgements of unsent data, otherwise update the sender), URG
logging, process_data, FIN recording, FIN consumption, the ACK for a FIN,
and delayed-ACK management (arm the deadline if unset, otherwise clear it
and ACK immediately).  `now` is the runtime clock reading. -/
def process_packet (cb0 : ControlBlock) (header : TcpHeader) (data : List Nat)
    (now : Nat) (transmitOk : Bool) : ProcResult :=
  match checkSegmentInWindow cb0.receiver.receive_next_seq_no
      (get_receive_window_size cb0) header data with
  | .panicked => .panicked
  | .dropped ackSent =>
    if ackSent then
      match sendAckCb cb0 transmitOk with
      | none => .panicked
      | some cb1 => .done cb1 (some .EBADMSG)
    else .done cb0 (some .EBADMSG)
  | .passed hdr data1 seg_start seg_end seg_len =>
    if hdr.rst then .done cb0 (some .ECONNRESET)
    else if hdr.syn then .done cb0 (some .EBADMSG)
    else if !hdr.ack then .done cb0 (some .EBADMSG)
    else if seqLe hdr.ack_num cb0.sender.next_seq_no then
      let cb1 := { cb0 with sender := Sender.process_ack cb0.sender hdr }
      match (if 0 < data1.length then process_data cb1 data1 seg_start seg_end seg_len transmitOk
             else some cb1) with
      | none => .panicked
      | some cb2 =>
        let cb3 :=
          if hdr.fin ∧ cb2.receiver.fin_seq_no = none then
            { cb2 with receiver := { cb2.receiver with fin_seq_no := some seg_end } }
          else cb2
        match check_fin_consumption cb3 with
        | none => .panicked
        | some cb4 =>
          match (if hdr.fin then sendAckCb cb4 transmitOk else some cb4) with
          | none => .panicked
          | some cb5 =>
            if cb5.receive_ack_deadline_time_secs = none then
              .done { cb5 with
                      receive_ack_deadline_time_secs :=
                        some (now + cb5.receive_ack_delay_timeout_secs) } none
            else
              match sendAckCb { cb5 with receive_ack_deadline_time_secs := none } transmitOk with
              | none => .panicked
              | some cb6 => .done cb6 none
    else
      match sendAckCb cb0 transmitOk with
      | none => .panicked
      | some cb1 => .done cb1 (some .EBADMSG)

/-- Result of one iteration of the main poll loop. -/
inductive PollStepResult where
  | panicked
  | continue_ (cb : ControlBlock)
  | exit (cb : ControlBlock) (err : Errno)
  deriving DecidableEq

/-- One iteration of SharedControlBlock::poll (lines 365-396): pop a
segment, run process_packet, log (and otherwise ignore) any error it
returns, then exit the loop with ECONNRESET only when the state has reached
Closed or TimeWait. -/
def pollStep (cb : ControlBlock) (header : TcpHeader) (data : List Nat)
    (now : Nat) (transmitOk : Bool) : PollStepResult :=
  match process_packet cb header data now transmitOk with
  | .panicked => .panicked
  | .done cb1 _err =>
    if cb1.state = .Closed ∨ cb1.state = .TimeWait then .exit cb1 .ECONNRESET
    else .continue_ cb1

/-- SharedControlBlock::close (lines 975-986) up to its first suspension
point: from Established move to FinWait1 (local_close, line 990), from
CloseWait move to LastAck (remote_already_closed, line 1015); any other
state is rejected with EBADF, leaving the control block untouched. -/
def closeStart (cb : ControlBlock) : ControlBlock × Option Errno :=
  match cb.state with
  | .Established => ({ cb with state := .FinWait1 }, none)
  | .CloseWait => ({ cb with state := .LastAck }, none)
  | _ => (cb, some .EBADF)

/-- The window computation as the specification claims it: the spec says the
header window field is `(rwnd >> recv_window_scale_shift)` clamped to the
u16 range. -/
def hdr_window_size_claimed (cb : ControlBlock) : Nat :=
  min (get_receive_window_size cb >>> cb.receive_window_scale_shift_bits) (2 ^ 16 - 1)

/-- Sortedness and pairwise disjointness of the out-of-order store: each
entry starts strictly after the previous one and past the previous entry's
last byte (plain Nat order, adequate away from the sequence-space wrap). -/
def oooSortedDisjoint : List (Nat × List Nat) → Bool
  | [] => true
  | [_] => true
  | a :: b :: rest =>
    decide (a.1 < b.1) && decide (a.1 + a.2.length ≤ b.1) && oooSortedDisjoint (b :: rest)

/-!
Theorems.  Each claim of the specification is settled by exactly one
theorem below (plus a witness for theorems with hypotheses, and a
counterexample where the claim as stated fails on the code).
-/

/-- A small concrete control block in the Established state used to
instantiate theorems: both sequence spaces at 1000, a 65535-frame receive
buffer, no window scaling, empty queues, no delayed-ACK deadline. -/
def baseCb : ControlBlock :=
  { state := .Established,
    sender := { unacked_seq_no := 0, next_seq_no := 0, send_window := 65535,
                send_window_scale_shift_bits := 0, mss := 1450 },
    receiver := { reader_next_seq_no := 1000, receive_next_seq_no := 1000,
                  fin_seq_no := none, recv_queue := [] },
    receive_ack_delay_timeout_secs := 1,
    receive_ack_deadline_time_secs := none,
    receive_buffer_size_frames := 65535,
    receive_window_scale_shift_bits := 0,
    receive_out_of_order_frames := [] }

/-- A concrete in-window RST segment header (sequence number exactly
`receive_next_seq_no` of `baseCb`, no payload, no SYN/FIN). -/
def hdrRst : TcpHeader :=
  { seq_num := 1000, ack_num := 0, ack := true, rst := true, syn := false,
    fin := false, urg := false, window_size := 0 }

/-- The header send_ack emits from `baseCb`. -/
def hdrAckW : TcpHeader :=
  { seq_num := 0, ack_num := 1000, ack := true, rst := false, syn := false,
    fin := false, urg := false, window_size := 65535 }

/-- A concrete control block whose receive window does not fit in a u16
after scaling: 100000 free frames with a zero scale shift. -/
def cbWide : ControlBlock :=
  { baseCb with
    receive_buffer_size_frames := 100000,
    receiver := { reader_next_seq_no := 0, receive_next_seq_no := 0,
                  fin_seq_no := none, recv_queue := [] } }

/-- A concrete FinWait2 control block whose recorded FIN sequence number
has just become equal to `receive_next_seq_no`. -/
def cbFin : ControlBlock :=
  { baseCb with
    state := .FinWait2,
    receiver := { reader_next_seq_no := 1000, receive_next_seq_no := 1000,
                  fin_seq_no := some 1000, recv_queue := [] } }

/-- C10: store_out_of_order_segment modifies only the out-of-order frame
list.  The receiver's sequence-number cursors, the in-order receive queue,
the fin observable, the connection state, and all sender fields are
unchanged by the call, for every control block and every segment. -/
theorem c10_store_out_of_order_frame (cb : ControlBlock) (ns ne : Nat) (buf : List Nat) :
    (store_out_of_order_segment cb ns ne buf).receiver.receive_next_seq_no
        = cb.receiver.receive_next_seq_no
    ∧ (store_out_of_order_segment cb ns ne buf).receiver.reader_next_seq_no
        = cb.receiver.reader_next_seq_no
    ∧ (store_out_of_order_segment cb ns ne buf).receiver.recv_queue
        = cb.receiver.recv_queue
    ∧ (store_out_of_order_segment cb ns ne buf).receiver.fin_seq_no
        = cb.receiver.fin_seq_no
    ∧ (store_out_of_order_segment cb ns ne buf).state = cb.state
    ∧ (store_out_of_order_segment cb ns ne buf).sender = cb.sender :=
  ⟨rfl, rfl, rfl, rfl, rfl, rfl⟩

/-- C9: close() called in any state other than Established or CloseWait
returns an EBADF-equivalent error and leaves the connection state (indeed
the whole control block) unchanged. -/
theorem c9_close_rejected (cb : ControlBlock)
    (h1 : cb.state ≠ .Established) (h2 : cb.state ≠ .CloseWait) :
    closeStart cb = (cb, some .EBADF) := by
  unfold closeStart
  split <;> simp_all

/-- Witness for c9_close_rejected at a concrete control block in the
Closing state. -/
theorem c9_close_rejected_witness :
    ({ baseCb with state := .Closing } : ControlBlock).state ≠ State.Established
    ∧ ({ baseCb with state := .Closing } : ControlBlock).state ≠ State.CloseWait
    ∧ closeStart { baseCb with state := .Closing }
        = ({ baseCb with state := .Closing }, some .EBADF) :=
  ⟨by decide, by decide,
   c9_close_rejected { baseCb with state := .Closing } (by decide) (by decide)⟩

/-- C5 counterexample: the claim says emit clears the delayed-ACK deadline
regardless of whether the layer-3 transmit succeeds.  At a control block
whose deadline is armed and a failing transmit, emit returns with the
deadline still armed (the code returns early on a transmit error, before
the clearing step). -/
theorem c5_counterexample :
    (emit { baseCb with receive_ack_deadline_time_secs := some 5 } hdrAckW none
        false).receive_ack_deadline_time_secs = some 5 := by
  decide

/-- C5 (amended): emit clears the delayed-ACK deadline exactly when the
layer-3 nonblocking transmit succeeds; on a transmit error it returns
early, leaving the control block (in particular the deadline) unchanged. -/
theorem c5_emit_deadline (cb : ControlBlock) (h : TcpHeader) (b : Option (List Nat)) :
    (emit cb h b true).receive_ack_deadline_time_secs = none
    ∧ emit cb h b false = cb :=
  ⟨rfl, rfl⟩

/-- C2: the claim says pop with `size = some n` on a head buffer longer
than `n` returns the first `n` bytes and re-pushes the tail to the front of
the receive queue.  The code does return the first `n` bytes but never
re-pushes the tail: popping 2 bytes of the queued 3-byte buffer `[1, 2, 3]`
leaves the receive queue empty, and a subsequent pop blocks instead of
returning the lost byte `[3]`. -/
theorem c2_pop_discards_tail :
    Receiver.pop
        { reader_next_seq_no := 0, receive_next_seq_no := 3, fin_seq_no := none,
          recv_queue := [[1, 2, 3]] } (some 2)
      = some ([1, 2],
          { reader_next_seq_no := 2, receive_next_seq_no := 3, fin_seq_no := none,
            recv_queue := [] })
    ∧ Receiver.pop
        { reader_next_seq_no := 2, receive_next_seq_no := 3, fin_seq_no := none,
          recv_queue := [] } (some 1) = none := by
  decide

/-- C3: the claim says that in the end-overlap case the head of the new
buffer is trimmed by `stored_end - new_start + 1` bytes so the store stays
pairwise disjoint.  The code trims by `stored_end - new_start` (no `+ 1`):
inserting the segment `[105, 114]` into a store holding `[100, 109]` trims
4 bytes instead of 5 and produces entries covering `[100, 109]` and
`[109, 114]`, which both contain sequence number 109 — the store's
documented no-duplicate-data invariant is violated. -/
theorem c3_store_overlap :
    (store_out_of_order_segment
        { baseCb with receive_out_of_order_frames := [(100, List.replicate 10 7)] }
        105 114 (List.replicate 10 9)).receive_out_of_order_frames
      = [(100, List.replicate 10 7), (109, List.replicate 6 9)]
    ∧ oooSortedDisjoint [(100, List.replicate 10 7)] = true
    ∧ oooSortedDisjoint [(100, List.replicate 10 7), (109, List.replicate 6 9)] = false := by
  decide

/-- C8: every ACK the control block emits through send_ack carries the ACK
flag, acknowledges exactly `receive_next_seq_no` as of the emission, and
uses SND.NXT as its sequence number. -/
theorem c8_send_ack_fields (cb : ControlBlock) (tOk : Bool) (cb2 : ControlBlock)
    (h : TcpHeader) (hs : send_ack cb tOk = some (cb2, h)) :
    h.ack = true ∧ h.ack_num = cb.receiver.receive_next_seq_no
    ∧ h.seq_num = cb.sender.next_seq_no := by
  unfold send_ack at hs
  cases htc : tcp_header cb with
  | none =>
    rw [htc] at hs
    exact Option.noConfusion hs
  | some hh =>
    rw [htc] at hs
    simp only [Option.some.injEq, Prod.mk.injEq] at hs
    obtain ⟨-, rfl⟩ := hs
    unfold tcp_header at htc
    cases hw : hdr_window_size cb with
    | none =>
      rw [hw] at htc
      exact Option.noConfusion htc
    | some w =>
      rw [hw] at htc
      simp only [Option.some.injEq] at htc
      subst htc
      exact ⟨rfl, rfl, rfl⟩

/-- Witness for c8_send_ack_fields: the ACK emitted from `baseCb`. -/
theorem c8_send_ack_fields_witness :
    send_ack baseCb true
      = some ({ baseCb with receive_ack_deadline_time_secs := none }, hdrAckW)
    ∧ (hdrAckW.ack = true ∧ hdrAckW.ack_num = baseCb.receiver.receive_next_seq_no
       ∧ hdrAckW.seq_num = baseCb.sender.next_seq_no) :=
  ⟨by decide,
   c8_send_ack_fields baseCb true { baseCb with receive_ack_deadline_time_secs := none }
     hdrAckW (by decide)⟩

/-- tailTrim never changes the RST flag. -/
theorem tailTrim_rst (a : Nat) (h : TcpHeader) (d : List Nat) (ss se sl : Nat)
    (h2 : TcpHeader) (d2 : List Nat) (s2 e2 l2 : Nat)
    (heq : tailTrim a h d ss se sl = .passed h2 d2 s2 e2 l2) : h2.rst = h.rst := by
  unfold tailTrim at heq
  split_ifs at heq <;> (injection heq with f1 f2 f3 f4 f5; subst f1; rfl)

/-- tailCheck never changes the RST flag. -/
theorem tailCheck_rst (a : Nat) (h : TcpHeader) (d : List Nat) (ss se sl : Nat)
    (h2 : TcpHeader) (d2 : List Nat) (s2 e2 l2 : Nat)
    (heq : tailCheck a h d ss se sl = .passed h2 d2 s2 e2 l2) : h2.rst = h.rst := by
  unfold tailCheck at heq
  split_ifs at heq
  · exact tailTrim_rst a h d ss se sl h2 d2 s2 e2 l2 heq
  · injection heq with f1 f2 f3 f4 f5; subst f1; rfl

/-- headTrim never changes the RST flag. -/
theorem headTrim_rst (rn a : Nat) (h : TcpHeader) (d : List Nat)
    (h2 : TcpHeader) (d2 : List Nat) (s2 e2 l2 : Nat)
    (heq : headTrim rn a h d = .passed h2 d2 s2 e2 l2) : h2.rst = h.rst := by
  unfold headTrim at heq
  split_ifs at heq
  · exact tailCheck_rst a { h with syn := false } _ _ _ _ h2 d2 s2 e2 l2 heq
  · exact tailCheck_rst a h _ _ _ _ h2 d2 s2 e2 l2 heq

/-- The windowing step never changes the RST flag: a segment that passes
check_segment_in_window carries the RST bit it arrived with. -/
theorem checkSegmentInWindow_passed_rst (rn rw : Nat) (h : TcpHeader) (d : List Nat)
    (h2 : TcpHeader) (d2 : List Nat) (s2 e2 l2 : Nat)
    (heq : checkSegmentInWindow rn rw h d = .passed h2 d2 s2 e2 l2) :
    h2.rst = h.rst := by
  unfold checkSegmentInWindow at heq
  split_ifs at heq <;>
    first
      | cases heq
      | exact headTrim_rst _ _ _ _ _ _ _ _ _ heq
      | exact tailCheck_rst _ _ _ _ _ _ _ _ _ _ _ heq

/-- C1 counterexample: the claim says an in-window RST segment makes the
main poll loop terminate.  At a concrete Established control block and an
in-window RST segment, process_packet does fail with the
ECONNRESET-equivalent error, but the poll loop treats it like any dropped
packet and continues with the control block unchanged. -/
theorem c1_counterexample :
    process_packet baseCb hdrRst [] 0 true = .done baseCb (some .ECONNRESET)
    ∧ pollStep baseCb hdrRst [] 0 true = .continue_ baseCb := by
  decide

/-- C1 (amended): for every ingress segment whose RST flag is set and that
survives the windowing step, arriving in any state in which the poll loop
is still running (any state other than Closed and TimeWait, including the
close-handshake states FinWait1, FinWait2, Closing, CloseWait and
LastAck), process_packet fails with an ECONNRESET-equivalent error, but
the poll loop does not terminate: the error is only logged, the control
block (in particular its state) is unchanged, and the loop continues to
the next segment — the loop exits only when the state reaches Closed or
TimeWait, which an RST does not cause. -/
theorem c1_rst_poll_continues (cb : ControlBlock) (header : TcpHeader)
    (data : List Nat) (now : Nat) (tOk : Bool)
    (h2 : TcpHeader) (d2 : List Nat) (s2 e2 l2 : Nat)
    (hrst : header.rst = true)
    (hpass : checkSegmentInWindow cb.receiver.receive_next_seq_no
        (get_receive_window_size cb) header data = .passed h2 d2 s2 e2 l2)
    (hcl : cb.state ≠ .Closed) (htw : cb.state ≠ .TimeWait) :
    process_packet cb header data now tOk = .done cb (some .ECONNRESET)
    ∧ pollStep cb header data now tOk = .continue_ cb := by
  have hr2 : h2.rst = true :=
    (checkSegmentInWindow_passed_rst _ _ _ _ _ _ _ _ _ hpass).trans hrst
  have hp : process_packet cb header data now tOk = .done cb (some .ECONNRESET) := by
    unfold process_packet
    rw [hpass]
    simp only [hr2, if_true]
  refine ⟨hp, ?_⟩
  unfold pollStep
  rw [hp]
  simp [hcl, htw]

/-- Witness for c1_rst_poll_continues at a concrete RST scenario during the
close handshake: the control block is in FinWait1. -/
theorem c1_rst_poll_continues_witness :
    hdrRst.rst = true
    ∧ checkSegmentInWindow
        ({ baseCb with state := .FinWait1 } : ControlBlock).receiver.receive_next_seq_no
        (get_receive_window_size { baseCb with state := .FinWait1 }) hdrRst []
        = .passed hdrRst [] 1000 1000 0
    ∧ ({ baseCb with state := .FinWait1 } : ControlBlock).state ≠ State.Closed
    ∧ ({ baseCb with state := .FinWait1 } : ControlBlock).state ≠ State.TimeWait
    ∧ (process_packet { baseCb with state := .FinWait1 } hdrRst [] 0 true
         = .done { baseCb with state := .FinWait1 } (some .ECONNRESET)
       ∧ pollStep { baseCb with state := .FinWait1 } hdrRst [] 0 true
         = .continue_ { baseCb with state := .FinWait1 }) :=
  ⟨rfl, by decide, by decide, by decide,
   c1_rst_poll_continues { baseCb with state := .FinWait1 } hdrRst [] 0 true
     hdrRst [] 1000 1000 0 rfl (by decide) (by decide) (by decide)⟩

/-- C6 counterexample: the claim says the header window field is
`(rwnd >> recv_window_scale_shift)` clamped to the u16 range and that the
computation is total.  At a control block whose unscaled window is 100000,
the code's hdr_window_size panics (`expect_ok!` on a failed u16
conversion, modelled `none`) while the claimed clamped value is 65535. -/
theorem c6_counterexample :
    hdr_window_size cbWide = none ∧ hdr_window_size_claimed cbWide = 65535 := by
  decide

/-- C6 (amended): tcp_header's window field is `(rwnd >> shift)` with no
clamping: whenever the scaled buffer size fits in a u16 (the configured
bound on the window), hdr_window_size succeeds and agrees with the
spec's clamped value; when the shifted window exceeds 65535 the computation
panics instead of clamping (c6_counterexample). -/
theorem c6_hdr_window_no_clamp (cb : ControlBlock)
    (hin : sub32 cb.receiver.receive_next_seq_no cb.receiver.reader_next_seq_no
        ≤ cb.receive_buffer_size_frames)
    (hbuf : cb.receive_buffer_size_frames < w32)
    (hfit : cb.receive_buffer_size_frames >>> cb.receive_window_scale_shift_bits < 2 ^ 16) :
    hdr_window_size cb
      = some (get_receive_window_size cb >>> cb.receive_window_scale_shift_bits)
    ∧ hdr_window_size cb = some (hdr_window_size_claimed cb) := by
  have hws : get_receive_window_size cb ≤ cb.receive_buffer_size_frames := by
    unfold get_receive_window_size sub32 w32 at *
    omega
  have hsh : get_receive_window_size cb >>> cb.receive_window_scale_shift_bits
      ≤ cb.receive_buffer_size_frames >>> cb.receive_window_scale_shift_bits := by
    simp only [Nat.shiftRight_eq_div_pow]
    exact Nat.div_le_div_right hws
  have hlt : get_receive_window_size cb >>> cb.receive_window_scale_shift_bits < 2 ^ 16 :=
    lt_of_le_of_lt hsh hfit
  unfold hdr_window_size hdr_window_size_claimed
  rw [if_pos hlt, Nat.min_eq_left (by omega)]
  exact ⟨rfl, rfl⟩

/-- Witness for c6_hdr_window_no_clamp at `baseCb`. -/
theorem c6_hdr_window_no_clamp_witness :
    sub32 baseCb.receiver.receive_next_seq_no baseCb.receiver.reader_next_seq_no
        ≤ baseCb.receive_buffer_size_frames
    ∧ baseCb.receive_buffer_size_frames < w32
    ∧ baseCb.receive_buffer_size_frames >>> baseCb.receive_window_scale_shift_bits < 2 ^ 16
    ∧ (hdr_window_size baseCb
        = some (get_receive_window_size baseCb >>> baseCb.receive_window_scale_shift_bits)
       ∧ hdr_window_size baseCb = some (hdr_window_size_claimed baseCb)) :=
  ⟨by decide, by decide, by decide,
   c6_hdr_window_no_clamp baseCb (by decide) (by decide) (by decide)⟩

/-- C7: whenever the recorded FIN sequence number equals
`receive_next_seq_no` during packet processing, process_fin runs: it
appends a zero-length buffer to the in-order receive queue (waking pop
waiters), advances `receive_next_seq_no` by exactly 1 past the FIN,
re-signals the fin observable, and transitions Established to CloseWait,
FinWait1 to Closing, and FinWait2 to TimeWait. -/
theorem c7_fin_consumption (cb : ControlBlock)
    (hfin : cb.receiver.fin_seq_no = some cb.receiver.receive_next_seq_no)
    (hst : cb.state = .Established ∨ cb.state = .FinWait1 ∨ cb.state = .FinWait2) :
    ∃ cb2, check_fin_consumption cb = some cb2
      ∧ cb2.receiver.recv_queue = cb.receiver.recv_queue ++ [[]]
      ∧ cb2.receiver.receive_next_seq_no = add32 cb.receiver.receive_next_seq_no 1
      ∧ cb2.receiver.fin_seq_no = some cb.receiver.receive_next_seq_no
      ∧ (cb.state = .Established → cb2.state = .CloseWait)
      ∧ (cb.state = .FinWait1 → cb2.state = .Closing)
      ∧ (cb.state = .FinWait2 → cb2.state = .TimeWait) := by
  unfold check_fin_consumption process_fin Receiver.push_fin
  rw [if_pos hfin]
  rcases hst with h | h | h <;> rw [h] <;>
    exact ⟨_, rfl, rfl, rfl, rfl, by simp [h], by simp [h], by simp [h]⟩

/-- Witness for c7_fin_consumption: the concrete FinWait2 control block
`cbFin` whose FIN has just become consumable. -/
theorem c7_fin_consumption_witness :
    cbFin.receiver.fin_seq_no = some cbFin.receiver.receive_next_seq_no
    ∧ (∃ cb2, check_fin_consumption cbFin = some cb2
        ∧ cb2.receiver.recv_queue = cbFin.receiver.recv_queue ++ [[]]
        ∧ cb2.receiver.receive_next_seq_no = add32 cbFin.receiver.receive_next_seq_no 1
        ∧ cb2.receiver.fin_seq_no = some cbFin.receiver.receive_next_seq_no
        ∧ (cbFin.state = .Established → cb2.state = .CloseWait)
        ∧ (cbFin.state = .FinWait1 → cb2.state = .Closing)
        ∧ (cbFin.state = .FinWait2 → cb2.state = .TimeWait)) :=
  ⟨by decide, c7_fin_consumption cbFin (by decide) (by decide)⟩

/-- Window containment through the tail-trim: entering with a segment whose
start offset from `receive_next` is at most the window and whose end lies at
or past the right edge, the trimmed segment occupies exactly the remaining
window space, and the payload length plus surviving flags equals the
remaining segment length. -/
theorem tailTrim_spec (R W : Nat) (h : TcpHeader) (d : List Nat) (ss se sl : Nat)
    (h2 : TcpHeader) (d2 : List Nat) (s2 e2 l2 : Nat)
    (hss : ss < w32) (hR : R < w32) (hW : W < 2 ^ 31) (hsl : sl < 2 ^ 31)
    (hsl0 : 0 < sl)
    (hds : sub32 ss R ≤ W)
    (hse : se = add32 ss (sl - 1))
    (hlen : d.length + (if h.syn then 1 else 0) + (if h.fin then 1 else 0) = sl)
    (hguard : ¬ seqLt se (add32 R W))
    (heq : tailTrim (add32 R W) h d ss se sl = .passed h2 d2 s2 e2 l2) :
    sub32 s2 R + l2 ≤ W
    ∧ d2.length + (if h2.syn then 1 else 0) + (if h2.fin then 1 else 0) = l2 := by
  subst hse
  unfold tailTrim tailTrimExcess at heq
  split_ifs at heq with hfin htr htr <;>
    (injection heq with f1 f2 f3 f4 f5
     subst f1 f2 f3 f4 f5
     refine ⟨?_, ?_⟩)
  · simp only [seqLt, sub32, add32, w32] at hds hguard ⊢
    omega
  · rw [List.length_take, Nat.min_eq_left (Nat.sub_le _ _)]
    simp [hfin] at hlen ⊢
    simp only [seqLt, sub32, add32, w32] at hguard htr hlen ⊢
    omega
  · simp only [seqLt, sub32, add32, w32] at hds hguard ⊢
    omega
  · rw [List.length_take, Nat.min_eq_left (Nat.sub_le _ _)]
    simp [hfin] at hlen ⊢
    simp only [seqLt, sub32, add32, w32] at hguard htr hlen ⊢
    omega

/-- Window containment through the tail check: a nonempty segment that
comes out of tailCheck lies within `[receive_next, receive_next + W)`. -/
theorem tailCheck_spec (R W : Nat) (h : TcpHeader) (d : List Nat) (ss se sl : Nat)
    (h2 : TcpHeader) (d2 : List Nat) (s2 e2 l2 : Nat)
    (hss : ss < w32) (hR : R < w32) (hW : W < 2 ^ 31) (hsl : sl < 2 ^ 31)
    (hds : sub32 ss R ≤ W)
    (hse : 0 < sl → se = add32 ss (sl - 1))
    (hlen : d.length + (if h.syn then 1 else 0) + (if h.fin then 1 else 0) = sl)
    (heq : tailCheck (add32 R W) h d ss se sl = .passed h2 d2 s2 e2 l2)
    (hl2 : 0 < l2) :
    sub32 s2 R + l2 ≤ W
    ∧ d2.length + (if h2.syn then 1 else 0) + (if h2.fin then 1 else 0) = l2 := by
  unfold tailCheck at heq
  split_ifs at heq with hg
  · exact tailTrim_spec R W h d ss se sl h2 d2 s2 e2 l2 hss hR hW hsl hg.1 hds
      (hse hg.1) hlen hg.2 heq
  · injection heq with f1 f2 f3 f4 f5
    subst f1 f2 f3 f4 f5
    have hseg : se = add32 ss (sl - 1) := hse hl2
    subst hseg
    have hlt : seqLt (add32 ss (sl - 1)) (add32 R W) := by
      by_contra hc
      exact hg ⟨hl2, hc⟩
    refine ⟨?_, hlen⟩
    simp only [seqLt, sub32, add32, w32] at hds hlt ⊢
    omega

/-- Window containment through the head-trim: a segment that starts before
`receive_next` but is not wholly duplicate gets its front cut at
`receive_next`; whatever then survives the tail check lies within the
window. -/
theorem headTrim_spec (R W : Nat) (h : TcpHeader) (d : List Nat)
    (h2 : TcpHeader) (d2 : List Nat) (s2 e2 l2 : Nat)
    (hseq : h.seq_num < w32) (hR : R < w32) (hW : W < 2 ^ 31)
    (hd : d.length + 2 < 2 ^ 31)
    (hlt : seqLt h.seq_num R)
    (hnd : ¬ seqLt (segEndInit h d) R)
    (heq : headTrim R (add32 R W) h d = .passed h2 d2 s2 e2 l2)
    (hl2 : 0 < l2) :
    sub32 s2 R + l2 ≤ W
    ∧ d2.length + (if h2.syn then 1 else 0) + (if h2.fin then 1 else 0) = l2 := by
  have hmod : d.length % w32 = d.length := Nat.mod_eq_of_lt (by unfold w32; omega)
  have hF : (if h.fin then 1 else 0) ≤ 1 := by
    split <;> omega
  unfold headTrim at heq
  split_ifs at heq with hsy htr htr
  · -- SYN present: it is cleared, and the payload trim count is one less.
    have hL : segLenInit h d = d.length + 1 + (if h.fin then 1 else 0) := by
      simp [segLenInit, hmod, hsy]
    have hL0 : 0 < segLenInit h d := by
      rw [hL]; omega
    rw [segEndInit, if_pos hL0, hL] at hnd
    refine tailCheck_spec R W { h with syn := false } _ _ _ _ h2 d2 s2 e2 l2
      ?_ hR hW ?_ ?_ ?_ ?_ heq hl2
    · simp only [add32, w32]
      omega
    · rw [hL]
      simp only [seqLt, sub32, add32, w32] at hlt hnd ⊢
      omega
    · simp only [seqLt, sub32, add32, w32] at hlt hnd ⊢
      omega
    · intro hp
      rw [hL] at hp
      rw [segEndInit, if_pos hL0, hL]
      simp only [seqLt, sub32, add32, w32] at hlt hnd hp ⊢
      omega
    · rw [hL, List.length_drop]
      simp
      simp only [seqLt, sub32, add32, w32] at hlt hnd htr ⊢
      omega
  · -- No SYN: trim exactly the duplicate byte count.
    have hL : segLenInit h d = d.length + (if h.fin then 1 else 0) := by
      simp [segLenInit, hmod, hsy]
    have hL0 : 0 < segLenInit h d := by
      by_contra hc
      rw [segEndInit, if_neg hc] at hnd
      exact hnd hlt
    rw [segEndInit, if_pos hL0, hL] at hnd
    rw [hL] at hL0
    refine tailCheck_spec R W h _ _ _ _ h2 d2 s2 e2 l2
      ?_ hR hW ?_ ?_ ?_ ?_ heq hl2
    · simp only [add32, w32]
      omega
    · rw [hL]
      simp only [seqLt, sub32, add32, w32] at hlt hnd ⊢
      omega
    · simp only [seqLt, sub32, add32, w32] at hlt hnd ⊢
      omega
    · intro hp
      rw [hL] at hp
      rw [segEndInit, if_pos (by rw [hL]; omega : 0 < segLenInit h d), hL]
      simp only [seqLt, sub32, add32, w32] at hlt hnd hp ⊢
      omega
    · rw [hL, List.length_drop]
      simp [hsy]
      simp only [seqLt, sub32, add32, w32] at hlt hnd htr ⊢
      omega

/-- The windowing step over plain sequence numbers: a nonempty segment that
passes lies within `[R, R + W)`, a wholly-duplicate segment is ACKed
(unless RST) and dropped, and a segment starting at or beyond `R + W` is
ACKed (unless RST) and dropped. -/
theorem checkSegmentInWindow_spec (R W : Nat) (header : TcpHeader) (data : List Nat)
    (hseq : header.seq_num < w32) (hR : R < w32) (hW : W < 2 ^ 31)
    (hd : data.length + 2 < 2 ^ 31) :
    (∀ h2 d2 s2 e2 l2,
        checkSegmentInWindow R W header data = .passed h2 d2 s2 e2 l2 → 0 < l2 →
        sub32 s2 R + l2 ≤ W
        ∧ d2.length + (if h2.syn then 1 else 0) + (if h2.fin then 1 else 0) = l2)
    ∧ (seqLt header.seq_num R ∧ seqLt (segEndInit header data) R →
        checkSegmentInWindow R W header data = .dropped (!header.rst))
    ∧ (seqLt R header.seq_num ∧ ¬ seqLt header.seq_num (add32 R W) →
        checkSegmentInWindow R W header data = .dropped (!header.rst)) := by
  have hmod : data.length % w32 = data.length := Nat.mod_eq_of_lt (by unfold w32; omega)
  have hS : (if header.syn then 1 else 0) ≤ 1 := by split <;> omega
  have hF : (if header.fin then 1 else 0) ≤ 1 := by split <;> omega
  have hLdef : segLenInit header data
      = data.length % w32 + (if header.syn then 1 else 0)
        + (if header.fin then 1 else 0) := rfl
  have hsl : segLenInit header data < 2 ^ 31 := by
    rw [hLdef, hmod]; omega
  refine ⟨?_, ?_, ?_⟩
  · intro h2 d2 s2 e2 l2 heq hl2
    unfold checkSegmentInWindow at heq
    split_ifs at heq with hne hlt hdup hout
    · exact headTrim_spec R W header data h2 d2 s2 e2 l2 hseq hR hW hd hlt hdup heq hl2
    · refine tailCheck_spec R W header data _ _ _ h2 d2 s2 e2 l2 hseq hR hW hsl
        ?_ ?_ ?_ heq hl2
      · simp only [seqLt, sub32, add32, w32] at hlt hout ⊢
        omega
      · intro hp
        rw [segEndInit, if_pos hp]
      · rw [hLdef, hmod]
    · refine tailCheck_spec R W header data _ _ _ h2 d2 s2 e2 l2 hseq hR hW hsl
        ?_ ?_ ?_ heq hl2
      · have hne2 : header.seq_num = R := by push_neg at hne; exact hne
        rw [hne2]
        simp only [sub32, w32]
        omega
      · intro hp
        rw [segEndInit, if_pos hp]
      · rw [hLdef, hmod]
  · rintro ⟨hA, hB⟩
    have hne : header.seq_num ≠ R := by
      have hA2 := hA
      simp only [seqLt, sub32, w32] at hA2
      omega
    unfold checkSegmentInWindow
    rw [if_pos hne, if_pos hA, if_pos hB]
  · rintro ⟨hA, hB⟩
    have hne : header.seq_num ≠ R := by
      have hA2 := hA
      simp only [seqLt, sub32, w32] at hA2
      omega
    have hnlt : ¬ seqLt header.seq_num R := by
      simp only [seqLt, sub32, w32] at hA ⊢
      omega
    unfold checkSegmentInWindow
    rw [if_pos hne, if_neg hnlt, if_pos hB]

/-- C4: for every segment that passes check_segment_in_window, the
remaining sequence range (payload plus any surviving SYN or FIN flag) lies
entirely within `[receive_next, receive_next + rwnd)` where
`rwnd = receive_buffer_size_frames - (receive_next - reader_next)`
(expressed as: the segment's start offset from `receive_next` plus its
remaining length is at most `rwnd`, and the remaining payload length plus
surviving flags equals the remaining segment length); a segment wholly
below `receive_next` is ACKed (unless RST) and dropped; and a segment
starting at or beyond `receive_next + rwnd` is ACKed (unless RST) and
dropped. -/
theorem c4_check_segment_in_window (cb : ControlBlock) (header : TcpHeader)
    (data : List Nat)
    (hin : sub32 cb.receiver.receive_next_seq_no cb.receiver.reader_next_seq_no
        ≤ cb.receive_buffer_size_frames)
    (hbuf : cb.receive_buffer_size_frames < 2 ^ 31)
    (hd : data.length + 2 < 2 ^ 31)
    (hseq : header.seq_num < w32)
    (hR : cb.receiver.receive_next_seq_no < w32) :
    (∀ h2 d2 s2 e2 l2,
        checkSegmentInWindow cb.receiver.receive_next_seq_no
            (get_receive_window_size cb) header data = .passed h2 d2 s2 e2 l2 →
        0 < l2 →
        sub32 s2 cb.receiver.receive_next_seq_no + l2 ≤ get_receive_window_size cb
        ∧ d2.length + (if h2.syn then 1 else 0) + (if h2.fin then 1 else 0) = l2)
    ∧ (seqLt header.seq_num cb.receiver.receive_next_seq_no
        ∧ seqLt (segEndInit header data) cb.receiver.receive_next_seq_no →
        checkSegmentInWindow cb.receiver.receive_next_seq_no
            (get_receive_window_size cb) header data = .dropped (!header.rst))
    ∧ (seqLt cb.receiver.receive_next_seq_no header.seq_num
        ∧ ¬ seqLt header.seq_num
            (add32 cb.receiver.receive_next_seq_no (get_receive_window_size cb)) →
        checkSegmentInWindow cb.receiver.receive_next_seq_no
            (get_receive_window_size cb) header data = .dropped (!header.rst)) := by
  have hW : get_receive_window_size cb < 2 ^ 31 := by
    simp only [get_receive_window_size, sub32, w32] at hin ⊢
    omega
  exact checkSegmentInWindow_spec cb.receiver.receive_next_seq_no
    (get_receive_window_size cb) header data hseq hR hW hd

/-- Witness for c4_check_segment_in_window at `baseCb` and a concrete
3-byte in-order segment. -/
theorem c4_check_segment_in_window_witness :
    (sub32 baseCb.receiver.receive_next_seq_no baseCb.receiver.reader_next_seq_no
        ≤ baseCb.receive_buffer_size_frames
     ∧ baseCb.receive_buffer_size_frames < 2 ^ 31
     ∧ ([1, 2, 3] : List Nat).length + 2 < 2 ^ 31
     ∧ hdrRst.seq_num < w32
     ∧ baseCb.receiver.receive_next_seq_no < w32)
    ∧ ((∀ h2 d2 s2 e2 l2,
        checkSegmentInWindow baseCb.receiver.receive_next_seq_no
            (get_receive_window_size baseCb) hdrRst [1, 2, 3] = .passed h2 d2 s2 e2 l2 →
        0 < l2 →
        sub32 s2 baseCb.receiver.receive_next_seq_no + l2 ≤ get_receive_window_size baseCb
        ∧ d2.length + (if h2.syn then 1 else 0) + (if h2.fin then 1 else 0) = l2)
    ∧ (seqLt hdrRst.seq_num baseCb.receiver.receive_next_seq_no
        ∧ seqLt (segEndInit hdrRst [1, 2, 3]) baseCb.receiver.receive_next_seq_no →
        checkSegmentInWindow baseCb.receiver.receive_next_seq_no
            (get_receive_window_size baseCb) hdrRst [1, 2, 3] = .dropped (!hdrRst.rst))
    ∧ (seqLt baseCb.receiver.receive_next_seq_no hdrRst.seq_num
        ∧ ¬ seqLt hdrRst.seq_num
            (add32 baseCb.receiver.receive_next_seq_no (get_receive_window_size baseCb)) →
        checkSegmentInWindow baseCb.receiver.receive_next_seq_no
            (get_receive_window_size baseCb) hdrRst [1, 2, 3] = .dropped (!hdrRst.rst))) :=
  ⟨⟨by decide, by decide, by decide, by decide, by decide⟩,
   c4_check_segment_in_window baseCb hdrRst [1, 2, 3]
     (by decide) (by decide) (by decide) (by decide) (by decide)⟩
